import Mathlib

/-
Verification development for the jobtool repository.

The definitions below are shallow embeddings of the functions in
src/jobtool/status.py, src/jobtool/walker.py, src/jobtool/jobfolder.py,
src/jobtool/format.py and src/jobtool/write.py.  Log-file lines are modelled
as lists of characters (what Python's readlines produces, trailing newline
included), a directory as an association list from file name to file lines,
and a directory tree as an inductive tree.  Definitions whose name carries a
spec/claim marker (claimWindow, claimStatus, specNotConverged, specFilter,
amendedWindow, amendedStatus) are written from the specification's words, to
be compared with the definitions taken from the source.
-/

namespace Jobtool

/-- Characters of Python's regex class for whitespace in the ASCII range
(space, tab, newline, carriage return, vertical tab, form feed); these are
also the characters str.strip removes. -/
def pyIsSpace (c : Char) : Bool :=
  c = ' ' || c = '\t' || c = '\n' || c = '\r' || c = '\x0b' || c = '\x0c'

/-- A single line of a log file, as an element of the list Python's
readlines() returns: the trailing newline character is part of the line. -/
abbrev Line := List Char

/-- A directory's regular files: an association list from file name to the
lines readlines() would return for that file.  A file exists in the directory
iff its name occurs as a key.  The marker file initial.traj is a trajectory
file whose content the tool never reads; any value works for it. -/
abbrev DirFiles := List (String × List Line)

/-- Translation of class Status(enum.StrEnum) from src/jobtool/status.py,
with its five members. -/
inductive Status where
  | UNKNOWN
  | CONVERGED
  | NOT_CONVERGED
  | UNFINISHED
  | NOT_STARTED
  deriving DecidableEq

/-- String value of each member: enum.auto() inside a StrEnum assigns each
member the lowercase of its name. -/
def Status.value : Status → String
  | .UNKNOWN => "unknown"
  | .CONVERGED => "converged"
  | .NOT_CONVERGED => "not_converged"
  | .UNFINISHED => "unfinished"
  | .NOT_STARTED => "not_started"

/-- Lookup performed by the enum constructor Status(v): the member whose
value equals v, and a ValueError (modelled as none) otherwise. -/
def Status.ofValue (v : String) : Option Status :=
  if v = "unknown" then some .UNKNOWN
  else if v = "converged" then some .CONVERGED
  else if v = "not_converged" then some .NOT_CONVERGED
  else if v = "unfinished" then some .UNFINISHED
  else if v = "not_started" then some .NOT_STARTED
  else none

/-- Translation of str.strip(): remove whitespace from both ends. -/
def pyStrip (s : String) : String :=
  ⟨((s.data.dropWhile pyIsSpace).reverse.dropWhile pyIsSpace).reverse⟩

/-- Translation of str.lower() for the ASCII strings at hand. -/
def pyLower (s : String) : String :=
  ⟨s.data.map Char.toLower⟩

/-- Translation of str.replace with the one-character pattern of a hyphen and
the one-character replacement of an underscore, which acts characterwise. -/
def pyReplaceDash (s : String) : String :=
  ⟨s.data.map (fun c => if c = '-' then '_' else c)⟩

/-- Translation of Status.from_string (src/jobtool/status.py line 50-52):
Status(string.strip().lower().replace(hyphen, underscore)); the ValueError of
an unrecognized value is modelled as none. -/
def Status.from_string (s : String) : Option Status :=
  Status.ofValue (pyReplaceDash (pyLower (pyStrip s)))

/-- CONVERGED_SIGNAL from src/jobtool/status.py: the regex of a caret
followed by the literal "Date:", used through .match, holds exactly of lines
that begin with that literal. -/
def convergedSignal (line : Line) : Bool :=
  "Date:".data.isPrefixOf line

/-- NOT_CONVERGED_SIGNAL from src/jobtool/status.py: the regex of a caret,
the literal "Did not converge!", then arbitrary whitespace up to the end of
the line, used through .match; it holds exactly of lines that are the literal
followed only by whitespace (the newline readlines keeps included). -/
def notConvergedSignal (line : Line) : Bool :=
  "Did not converge!".data.isPrefixOf line
    && (line.drop "Did not converge!".data.length).all pyIsSpace

/-- Python list slicing lines[-n:]: for n = 0 the slice is lines[0:], the
whole list; for n of at least 1 it is the last n elements, or all of them
when the list is shorter than n. -/
def pyTail (lines : List Line) (n : Nat) : List Line :=
  if n = 0 then lines else lines.drop (lines.length - n)

/-- Tail-window classification of get_status (src/jobtool/status.py lines
108-120) once the log is known non-empty: last_few_lines is the slice
lines[-lines_checked:], the final window line decides CONVERGED, any window
line decides NOT_CONVERGED, everything else is UNFINISHED.  The subscript
last_few_lines[-1] is total in the source because the slice of a non-empty
list is non-empty; getLastD's default is therefore never read. -/
def classifyTail (lines : List Line) (linesChecked : Nat) : Status :=
  let lastFew := pyTail lines linesChecked
  if convergedSignal (lastFew.getLastD []) then .CONVERGED
  else if lastFew.any notConvergedSignal then .NOT_CONVERGED
  else .UNFINISHED

/-- Translation of is_jobfolder (src/jobtool/status.py lines 123-125): the
directory contains a file of the marker name. -/
def is_jobfolder (d : DirFiles) (initialfilename : String) : Bool :=
  (d.lookup initialfilename).isSome

/-- Body of get_status after the marker check has passed: a missing log file
gives NOT_STARTED, an empty one gives UNKNOWN, otherwise the trailing window
decides. -/
def statusOfJobfolder (d : DirFiles) (linesChecked : Nat) (logfilename : String) : Status :=
  match d.lookup logfilename with
  | none => .NOT_STARTED
  | some lines => if lines.isEmpty then .UNKNOWN else classifyTail lines linesChecked

/-- Translation of get_status (src/jobtool/status.py lines 81-120): on a
directory without the marker file, strict mode raises ValueError (the error
case) and lenient mode returns None; on a jobfolder the status is computed
and no error is possible. -/
def get_status (d : DirFiles) (linesChecked : Nat) (initialfile logfilename : String)
    (strict : Bool) : Except Unit (Option Status) :=
  if !(is_jobfolder d initialfile) then
    if strict then .error () else .ok none
  else
    .ok (some (statusOfJobfolder d linesChecked logfilename))

/-- A directory tree: the files of the directory at the top, then its
subdirectories with their names. -/
inductive FsTree where
  | node (files : DirFiles) (subdirs : List (String × FsTree))

/-- Path of a directory relative to the walk root: the list of subdirectory
names leading to it (the root itself has the empty path). -/
abbrev DirPath := List String

/-- One directory visited by the walk: its path and its files. -/
abbrev Entry := DirPath × DirFiles

mutual

/-- Enumeration of the directories os.walk visits with topdown=True on an
existing tree: the directory itself first, then every subdirectory
recursively.  Every directory is visited, whether or not it is a jobfolder;
the jobfolder filter in walker comes only afterwards. -/
def walkDirs (p : DirPath) (t : FsTree) : List Entry :=
  match t with
  | .node files subdirs => (p, files) :: walkSubs p subdirs

/-- Walk of a list of named subdirectories, in order. -/
def walkSubs (p : DirPath) (l : List (String × FsTree)) : List Entry :=
  match l with
  | [] => []
  | (n, t) :: rest => walkDirs (p ++ [n]) t ++ walkSubs p rest

end

/-- Translation of the Result named tuple of src/jobtool/walker.py. -/
structure Result where
  path : DirPath
  status : Status
  deriving DecidableEq

/-- os.walk applied to the root argument of walker.  A root that does not
exist, or is not a directory, makes the initial scandir call fail; os.walk
passes that error to its onerror argument, which defaults to None, so the
error is ignored and the walk yields nothing (CPython documentation: "By
default, errors from the scandir() call are ignored").  Such a root is
modelled as none. -/
def osWalk (root : Option FsTree) : List Entry :=
  match root with
  | none => []
  | some t => walkDirs [] t

/-- Translation of as_result inside walker (src/jobtool/walker.py lines
42-49): the jobfolder paired with its status from get_status in strict mode.
walker applies it only to entries that passed the is_jobfolder filter, on
which strict get_status returns exactly statusOfJobfolder (theorem
get_status_on_jobfolder below), so the Result is built from that. -/
def as_result (linesChecked : Nat) (logfilename : String) (e : Entry) : Result :=
  ⟨e.1, statusOfJobfolder e.2 linesChecked logfilename⟩

/-- Translation of walker (src/jobtool/walker.py lines 15-51): take the root
of every triple os.walk yields, keep the directories that are jobfolders,
and convert each to a Result. -/
def walker (root : Option FsTree) (linesChecked : Nat)
    (initialfilename logfilename : String) : List Result :=
  ((osWalk root).filter (fun e => is_jobfolder e.2 initialfilename)).map
    (as_result linesChecked logfilename)

/-- Parsing of the status strings inside _filter_func
(src/jobtool/jobfolder.py lines 75-84): set(map(Status.from_string,
statuses)) evaluates Status.from_string on every element, left to right, and
the first ValueError aborts the call; success gives the parsed collection. -/
def parseStatuses : List String → Option (List Status)
  | [] => some []
  | s :: rest =>
    match Status.from_string s, parseStatuses rest with
    | some st, some sts => some (st :: sts)
    | _, _ => none

/-- Translation of _filter_func (src/jobtool/jobfolder.py lines 75-84): build
the parsed status set, then the predicate testing membership of a result's
status in it; a parse failure is the error (none). -/
def filter_func (statuses : List String) : Option (Result → Bool) :=
  match parseStatuses statuses with
  | none => none
  | some parsed => some (fun r => parsed.contains r.status)

/-- Translation of the filter stage of get_jobfolders
(src/jobtool/jobfolder.py lines 52-71).  The walker output is a lazily
produced sequence, modelled as a thunk that is forced only where the source
consumes the iterator.  The source's "if include:" and "if exclude:" skip
falsy (empty) arguments; for a non-empty argument, _filter_func runs at call
time, so its ValueError surfaces before the walk produces any element --
in the model, before the thunk is ever applied. -/
def get_jobfolders (walk : Unit → List Result) (incArg excArg : List String) :
    Except Unit (List Result) :=
  if incArg.isEmpty then
    if excArg.isEmpty then .ok (walk ())
    else
      match filter_func excArg with
      | none => .error ()
      | some fe => .ok ((walk ()).filter (fun r => !(fe r)))
  else
    match filter_func incArg with
    | none => .error ()
    | some fi =>
      if excArg.isEmpty then .ok ((walk ()).filter fi)
      else
        match filter_func excArg with
        | none => .error ()
        | some fe => .ok (((walk ()).filter fi).filter (fun r => !(fe r)))

/-- Input of csv_formatter (src/jobtool/format.py): either a bare path (the
with_status=False shape of get_jobfolders) or a full Result. -/
inductive CsvInput where
  | path (p : DirPath)
  | result (r : Result)

/-- Rendering of result.path.absolute().as_posix(): the components joined by
forward slashes.  Resolution against the working directory is outside the
model; paths are taken as already absolute, a leading empty component giving
the leading slash. -/
def asPosix (p : DirPath) : String :=
  String.intercalate "/" p

/-- Translation of csv_formatter (src/jobtool/format.py lines 16-21): a bare
path renders as the path and a newline; a Result renders as the status value,
a comma and space, the path, and a newline. -/
def csv_formatter : CsvInput → String
  | .path p => asPosix p ++ "\n"
  | .result r => r.status.value ++ ", " ++ asPosix r.path ++ "\n"

/-- Translation of write_results_csv (src/jobtool/write.py lines 9-11): the
header line, then the already formatted rows; the returned list is the
sequence of strings written to the sink, in order. -/
def write_results_csv (results : List String) (with_status : Bool) : List String :=
  (if with_status then "path, status\n" else "path\n") :: results

/-- Window of claim C1, written from its words: "the window of the last
lines_checked lines (all lines if fewer)".  Taking the last n lines of a list
is reversing, taking n, and reversing back; a window of zero lines is empty. -/
def claimWindow (lines : List Line) (n : Nat) : List Line :=
  (lines.reverse.take n).reverse

/-- Non-convergence marker in the words of the spec: the entire line,
ignoring trailing whitespace, equals the literal "Did not converge!". -/
def specNotConverged (line : Line) : Bool :=
  line.rdropWhile pyIsSpace = "Did not converge!".data

/-- Classification by claim C1 exactly as stated: NOT_STARTED without a log
file, UNKNOWN on a zero-line log, otherwise CONVERGED when the very last line
of the log begins with "Date:", otherwise NOT_CONVERGED when some line of the
window matches the non-convergence marker, otherwise UNFINISHED. -/
def claimStatus (d : DirFiles) (n : Nat) (logfilename : String) : Status :=
  match d.lookup logfilename with
  | none => .NOT_STARTED
  | some lines =>
    if lines.isEmpty then .UNKNOWN
    else if convergedSignal (lines.getLastD []) then .CONVERGED
    else if (claimWindow lines n).any specNotConverged then .NOT_CONVERGED
    else .UNFINISHED

/-- Window of the amended claim C1: the last lines_checked lines (all lines
if fewer) for lines_checked of at least 1, and the entire log for
lines_checked = 0, since the Python slice with negative zero takes the whole
list. -/
def amendedWindow (lines : List Line) (n : Nat) : List Line :=
  if n = 0 then lines else (lines.reverse.take n).reverse

/-- Classification by the amended claim C1: as claimStatus, with the window
replaced by amendedWindow. -/
def amendedStatus (d : DirFiles) (n : Nat) (logfilename : String) : Status :=
  match d.lookup logfilename with
  | none => .NOT_STARTED
  | some lines =>
    if lines.isEmpty then .UNKNOWN
    else if convergedSignal (lines.getLastD []) then .CONVERGED
    else if (amendedWindow lines n).any specNotConverged then .NOT_CONVERGED
    else .UNFINISHED

/-- Filter semantics as claim C5 states them: when the include set is
non-empty keep exactly the results whose status belongs to it, then, when the
exclude set is non-empty, remove the results whose status belongs to that;
an empty set means no filtering. -/
def specFilter (incS excS : List Status) (results : List Result) : List Result :=
  let afterInc :=
    if incS.isEmpty then results else results.filter (fun r => incS.contains r.status)
  if excS.isEmpty then afterInc
  else afterInc.filter (fun r => !(excS.contains r.status))

/- Helper lemmas. -/

/-- Parsing the value of any member gives that member back. -/
theorem from_string_value (s : Status) : Status.from_string s.value = some s := by
  cases s <;> rfl

/-- On a jobfolder, get_status never errors and never returns the sentinel:
both modes compute statusOfJobfolder. -/
theorem get_status_on_jobfolder {d : DirFiles} {i : String}
    (h : is_jobfolder d i = true) (lc : Nat) (l : String) (strict : Bool) :
    get_status d lc i l strict = .ok (some (statusOfJobfolder d lc l)) := by
  simp [get_status, h]

/-- The Python slice lines[-n:] agrees with the amended window description. -/
theorem pyTail_eq_amendedWindow (lines : List Line) (n : Nat) :
    pyTail lines n = amendedWindow lines n := by
  unfold pyTail amendedWindow
  by_cases h : n = 0
  · simp [h]
  · simp only [h, if_false]
    rw [← List.rtake_eq_reverse_take_reverse]
    rfl

/-- The last entry of a non-empty drop is the last entry of the list. -/
theorem getLast?_drop_of_ne_nil {α : Type} {l : List α} {k : Nat} (h : l.drop k ≠ []) :
    (l.drop k).getLast? = l.getLast? := by
  conv_rhs => rw [← List.take_append_drop k l]
  rw [List.getLast?_append]
  cases hd : (l.drop k).getLast? with
  | none => exact absurd (List.getLast?_eq_none_iff.mp hd) h
  | some a => rfl

/-- Unfolding of Boolean prefix testing into an existential. -/
theorem isPrefixOf_eq_true_iff {α : Type} [DecidableEq α] (l₁ l₂ : List α) :
    l₁.isPrefixOf l₂ = true ↔ ∃ t, l₂ = l₁ ++ t := by
  induction l₁ generalizing l₂ with
  | nil =>
    simp [List.isPrefixOf]
  | cons a l ih =>
    cases l₂ with
    | nil => simp [List.isPrefixOf]
    | cons b t =>
      simp only [List.isPrefixOf, Bool.and_eq_true, beq_iff_eq, ih, List.cons_append,
        List.cons.injEq]
      constructor
      · rintro ⟨hab, u, hu⟩
        exact ⟨u, hab.symm, hu⟩
      · rintro ⟨u, hab, hu⟩
        exact ⟨hab.symm, u, hu⟩

/-- The regex translation of the non-convergence marker coincides with the
spec's description "the entire line, ignoring trailing whitespace, equals the
literal". -/
theorem notConvergedSignal_eq_specNotConverged :
    notConvergedSignal = specNotConverged := by
  funext line
  rw [Bool.eq_iff_iff]
  unfold notConvergedSignal specNotConverged
  constructor
  · intro h
    rw [Bool.and_eq_true] at h
    obtain ⟨h1, h2⟩ := h
    obtain ⟨t, ht⟩ := (isPrefixOf_eq_true_iff _ _).mp h1
    subst ht
    rw [List.drop_left] at h2
    apply decide_eq_true
    unfold List.rdropWhile
    rw [List.reverse_append]
    rw [List.dropWhile_append_of_pos (by
      intro a ha
      rw [List.mem_reverse] at ha
      exact (List.all_eq_true.mp h2) a ha)]
    have hlit : "Did not converge!".data.reverse.dropWhile pyIsSpace
        = "Did not converge!".data.reverse := by decide
    rw [hlit, List.reverse_reverse]
  · intro h
    have h' : line.rdropWhile pyIsSpace = "Did not converge!".data :=
      of_decide_eq_true h
    unfold List.rdropWhile at h'
    have hv : line.reverse.dropWhile pyIsSpace = "Did not converge!".data.reverse := by
      rw [← List.reverse_reverse (line.reverse.dropWhile pyIsSpace), h']
    have hline : line = "Did not converge!".data ++ (line.reverse.takeWhile pyIsSpace).reverse := by
      conv_lhs => rw [← List.reverse_reverse line,
        ← List.takeWhile_append_dropWhile pyIsSpace line.reverse]
      rw [List.reverse_append, hv, List.reverse_reverse]
    rw [Bool.and_eq_true]
    refine ⟨(isPrefixOf_eq_true_iff _ _).mpr ⟨(line.reverse.takeWhile pyIsSpace).reverse, hline⟩, ?_⟩
    conv_lhs => rw [hline]
    rw [List.drop_left]
    rw [List.all_eq_true]
    intro a ha
    rw [List.mem_reverse] at ha
    exact List.mem_takeWhile_imp ha

/-- The last line of the trailing window of a non-empty log is the last line
of the log. -/
theorem getLastD_pyTail {lines : List Line} (h : lines ≠ []) (n : Nat) (x : Line) :
    (pyTail lines n).getLastD x = lines.getLastD x := by
  unfold pyTail
  by_cases h0 : n = 0
  · simp [h0]
  · rw [if_neg h0, List.getLastD_eq_getLast?, List.getLastD_eq_getLast?]
    have hlen : 0 < lines.length := List.length_pos.mpr h
    have hne : lines.drop (lines.length - n) ≠ [] := by
      intro hd
      have hld := List.length_drop (lines.length - n) lines
      rw [hd] at hld
      simp only [List.length_nil] at hld
      omega
    rw [getLast?_drop_of_ne_nil hne]

/-- Tail classification agrees with the amended claim wording on non-empty
logs: the very last line of the log decides convergence, the amended window
is scanned for the non-convergence marker. -/
theorem classifyTail_eq_amended {lines : List Line} (h : lines ≠ []) (n : Nat) :
    classifyTail lines n =
      (if convergedSignal (lines.getLastD []) then Status.CONVERGED
       else if (amendedWindow lines n).any specNotConverged then Status.NOT_CONVERGED
       else Status.UNFINISHED) := by
  simp only [classifyTail]
  rw [getLastD_pyTail h, pyTail_eq_amendedWindow, notConvergedSignal_eq_specNotConverged]

/-- C1 (amended): for every directory containing the marker file, get_status
follows the priority order NOT_STARTED (no log), UNKNOWN (zero-line log),
then, over the window of the last lines_checked lines -- all lines if the log
has fewer, and the entire log when lines_checked is 0, since the Python slice
lines[-0:] is the whole list -- CONVERGED when the very last line of the log
begins with "Date:", otherwise NOT_CONVERGED when some window line equals
"Did not converge!" up to trailing whitespace, otherwise UNFINISHED; a final
"Date:" line yields CONVERGED even when an earlier window line reads "Did not
converge!". -/
theorem get_status_priority_order (d : DirFiles) (lc : Nat) (i l : String) (strict : Bool)
    (h : is_jobfolder d i = true) :
    get_status d lc i l strict = .ok (some (amendedStatus d lc l)) := by
  rw [get_status_on_jobfolder h]
  unfold statusOfJobfolder amendedStatus
  cases hl : d.lookup l with
  | none => rfl
  | some lines =>
    by_cases he : lines.isEmpty
    · simp [he]
    · have hne : lines ≠ [] := by
        intro hnil
        rw [hnil] at he
        simp at he
      simp only [he, Bool.false_eq_true, if_false]
      rw [classifyTail_eq_amended hne]

/-- C1 counterexample: at lines_checked = 0 the claim's window of the last
zero lines is empty, so the claim predicts UNFINISHED for a log whose only
line is the non-convergence marker, while the code scans the whole log
(lines[-0:]) and returns NOT_CONVERGED. -/
theorem get_status_priority_counterexample :
    get_status [("initial.traj", []), ("log.txt", ["Did not converge!\n".data])] 0
        "initial.traj" "log.txt" false = .ok (some .NOT_CONVERGED)
      ∧ claimStatus [("initial.traj", []), ("log.txt", ["Did not converge!\n".data])] 0
          "log.txt" = .UNFINISHED
      ∧ Status.NOT_CONVERGED ≠ Status.UNFINISHED :=
  ⟨rfl, rfl, by decide⟩

/-- Witness for C1: a jobfolder whose log ends in the marker line followed by
a space evaluates through the theorem to NOT_CONVERGED. -/
theorem get_status_priority_order_witness :
    get_status [("initial.traj", []), ("log.txt", ["Step 1\n".data, "Did not converge! \n".data])]
        20 "initial.traj" "log.txt" false = .ok (some .NOT_CONVERGED) :=
  (get_status_priority_order
    [("initial.traj", []), ("log.txt", ["Step 1\n".data, "Did not converge! \n".data])]
    20 "initial.traj" "log.txt" false (by decide)).trans rfl

/-- C3 (amended): for a jobfolder whose log file exists and is non-empty,
get_status with lines_checked = 0 scans the entire log -- the Python slice
lines[-0:] is all lines -- and therefore returns exactly what it returns with
lines_checked equal to the length of the log, not unconditionally
UNFINISHED. -/
theorem get_status_zero_window (d : DirFiles) (i l : String) (strict : Bool)
    (lines : List Line) (hjf : is_jobfolder d i = true) (hlog : d.lookup l = some lines)
    (_hne : lines ≠ []) :
    get_status d 0 i l strict = get_status d lines.length i l strict := by
  rw [get_status_on_jobfolder hjf, get_status_on_jobfolder hjf]
  unfold statusOfJobfolder
  rw [hlog]
  have hwin : pyTail lines 0 = pyTail lines lines.length := by
    unfold pyTail
    by_cases h0 : lines.length = 0
    · simp [h0]
    · simp [h0, Nat.sub_self]
  simp only [classifyTail, hwin]

/-- C3 counterexample: a jobfolder with a non-empty log whose last line is a
"Date:" line gets CONVERGED from get_status at lines_checked = 0, not the
UNFINISHED the claim requires. -/
theorem get_status_zero_window_counterexample :
    get_status [("initial.traj", []), ("log.txt", ["Date: Mon Jan 1\n".data])] 0
        "initial.traj" "log.txt" false = .ok (some .CONVERGED)
      ∧ Status.CONVERGED ≠ Status.UNFINISHED :=
  ⟨rfl, by decide⟩

/-- Witness for C3: a two-line log evaluated at lines_checked 0 and 2. -/
theorem get_status_zero_window_witness :
    get_status [("initial.traj", []), ("log.txt", ["abc\n".data, "Did not converge!\n".data])] 0
        "initial.traj" "log.txt" false
      = get_status [("initial.traj", []), ("log.txt", ["abc\n".data, "Did not converge!\n".data])]
          2 "initial.traj" "log.txt" false :=
  get_status_zero_window
    [("initial.traj", []), ("log.txt", ["abc\n".data, "Did not converge!\n".data])]
    "initial.traj" "log.txt" false ["abc\n".data, "Did not converge!\n".data]
    (by decide) (by decide) (by decide)

/-- C4 counterexample: the string with an inner space does not parse to the
member the hyphenated and underscored spellings parse to; it is rejected,
because from_string replaces only hyphens, not spaces. -/
theorem from_string_space_counterexample :
    Status.from_string "  NOT CONVERGED  " ≠ Status.from_string "Not-Converged"
      ∧ Status.from_string "  NOT CONVERGED  " = none :=
  ⟨by decide, rfl⟩

/-- C4 (amended): parsing strips surrounding whitespace, lowercases, and maps
hyphens -- not spaces -- to underscores: "Not-Converged" and "not_converged"
parse to NOT_CONVERGED, while "  NOT CONVERGED  " and "bogus" are parse
errors. -/
theorem from_string_parsing :
    Status.from_string "Not-Converged" = some .NOT_CONVERGED
      ∧ Status.from_string "not_converged" = some .NOT_CONVERGED
      ∧ Status.from_string "  NOT CONVERGED  " = none
      ∧ Status.from_string "bogus" = none :=
  ⟨rfl, rfl, rfl, rfl⟩

/-- C8: a directory without the marker file makes strict classification raise
and lenient classification return the sentinel; a directory with the marker
file gets a real status from both modes, never the not-a-jobfolder signal. -/
theorem get_status_strict_and_lenient (d : DirFiles) (lc : Nat) (i l : String) :
    (is_jobfolder d i = false →
      get_status d lc i l true = .error () ∧ get_status d lc i l false = .ok none)
    ∧ (is_jobfolder d i = true →
      ∀ strict, get_status d lc i l strict = .ok (some (statusOfJobfolder d lc l))) := by
  constructor
  · intro h
    constructor <;> simp [get_status, h]
  · intro h strict
    exact get_status_on_jobfolder h lc l strict

/-- Witness for C8: an empty directory errors strictly and returns none
leniently; a directory holding only the marker file classifies. -/
theorem get_status_strict_and_lenient_witness :
    (get_status [] 20 "initial.traj" "log.txt" true = .error ()
      ∧ get_status [] 20 "initial.traj" "log.txt" false = .ok none)
    ∧ get_status [("initial.traj", [])] 20 "initial.traj" "log.txt" true
        = .ok (some (statusOfJobfolder [("initial.traj", [])] 20 "log.txt")) :=
  ⟨(get_status_strict_and_lenient [] 20 "initial.traj" "log.txt").1 (by decide),
   (get_status_strict_and_lenient [("initial.traj", [])] 20 "initial.traj" "log.txt").2
     (by decide) true⟩

/-- C10: every Status member round-trips through from_string on its own
value, so any status string the tool emits is accepted back as a filter
value. -/
theorem status_value_round_trip : ∀ s : Status, Status.from_string s.value = some s :=
  from_string_value

/-- Parsing a list of member values recovers the members. -/
theorem parseStatuses_map_value (l : List Status) :
    parseStatuses (l.map Status.value) = some l := by
  induction l with
  | nil => rfl
  | cons s rest ih => simp [parseStatuses, from_string_value, ih]

/-- The filter predicate built from member values tests membership in the
original collection. -/
theorem filter_func_map_value (l : List Status) :
    filter_func (l.map Status.value) = some (fun r => l.contains r.status) := by
  simp [filter_func, parseStatuses_map_value]

/-- C5: the filter stage keeps exactly the results whose status lies in the
include set when that set is non-empty, then removes those whose status lies
in the exclude set when that is non-empty, an empty set meaning no filtering;
in particular the statuses CONVERGED, CONVERGED, UNFINISHED, NOT_STARTED with
include and exclude both the singleton CONVERGED give the empty sequence. -/
theorem get_jobfolders_filter_semantics :
    (∀ (results : List Result) (incS excS : List Status),
      get_jobfolders (fun _ => results) (incS.map Status.value) (excS.map Status.value)
        = .ok (specFilter incS excS results))
    ∧ get_jobfolders
        (fun _ => [⟨["a"], .CONVERGED⟩, ⟨["b"], .CONVERGED⟩,
                   ⟨["c"], .UNFINISHED⟩, ⟨["d"], .NOT_STARTED⟩])
        ["converged"] ["converged"] = .ok [] := by
  constructor
  · intro results incS excS
    unfold get_jobfolders specFilter
    cases incS with
    | nil =>
      cases excS with
      | nil => rfl
      | cons e es =>
        rw [filter_func_map_value (e :: es)]
        exact rfl
    | cons i0 is =>
      cases excS with
      | nil =>
        rw [filter_func_map_value (i0 :: is)]
        exact rfl
      | cons e es =>
        rw [filter_func_map_value (i0 :: is), filter_func_map_value (e :: es)]
        exact rfl
  · rfl

/-- A list containing an unparseable string fails to parse. -/
theorem parseStatuses_none_of_mem {l : List String} {s : String}
    (hs : s ∈ l) (hbad : Status.from_string s = none) : parseStatuses l = none := by
  induction l with
  | nil => cases hs
  | cons a rest ih =>
    rcases List.mem_cons.mp hs with h | h
    · rw [← h]
      simp [parseStatuses, hbad]
    · cases hfa : Status.from_string a <;> simp [parseStatuses, hfa, ih h]

/-- filter_func fails on a collection containing an unparseable string. -/
theorem filter_func_none_of_mem {l : List String} {s : String} (hs : s ∈ l)
    (hbad : Status.from_string s = none) : filter_func l = none := by
  simp [filter_func, parseStatuses_none_of_mem hs hbad]

/-- C9: an unparseable status string in the include or exclude argument makes
get_jobfolders fail with the configuration error for every walker stream
whatsoever -- the outcome is fixed before, and independently of, any element
the stream could produce. -/
theorem get_jobfolders_eager_parse_error (incArg excArg : List String)
    (hbad : (∃ s ∈ incArg, Status.from_string s = none)
      ∨ (∃ s ∈ excArg, Status.from_string s = none)) :
    ∀ walk : Unit → List Result, get_jobfolders walk incArg excArg = .error () := by
  intro walk
  unfold get_jobfolders
  rcases hbad with ⟨s, hs, hb⟩ | ⟨s, hs, hb⟩
  · have hne : incArg.isEmpty = false := by
      cases incArg
      · cases hs
      · rfl
    simp [hne, filter_func_none_of_mem hs hb]
  · have hexne : excArg.isEmpty = false := by
      cases excArg
      · cases hs
      · rfl
    by_cases hin : incArg.isEmpty
    · simp [hin, hexne, filter_func_none_of_mem hs hb]
    · cases hfi : filter_func incArg with
      | none => simp [hin, hfi]
      | some fi => simp [hin, hfi, hexne, filter_func_none_of_mem hs hb]

/-- Witness for C9: the unparseable include string "bogus" yields the error
on a non-trivial stream. -/
theorem get_jobfolders_eager_parse_error_witness :
    get_jobfolders (fun _ => [⟨["a"], .CONVERGED⟩]) ["bogus"] [] = .error () :=
  get_jobfolders_eager_parse_error ["bogus"] []
    (Or.inl ⟨"bogus", List.mem_singleton_self "bogus", rfl⟩)
    (fun _ => [⟨["a"], .CONVERGED⟩])

/-- C7 evaluation: with statuses enabled the header line says path then
status, but the row for a result carries the status first and the path
second; with statuses disabled the header is the bare word and each row the
bare path. -/
theorem write_results_csv_row_order :
    write_results_csv [csv_formatter (.result ⟨["", "jobs", "a"], .CONVERGED⟩)] true
      = ["path, status\n", "converged, /jobs/a\n"]
    ∧ write_results_csv [csv_formatter (.path ["", "jobs", "a"])] false
      = ["path\n", "/jobs/a\n"] :=
  ⟨rfl, rfl⟩

/-- C6 counterexample: the walk of a root that does not exist or is not a
directory produces the empty result sequence without any error: os.walk
hands the failing initial scandir to onerror, which defaults to None, so the
walker is exhausted immediately rather than failing. -/
theorem walker_invalid_root_counterexample :
    walker none 20 "initial.traj" "log.txt" = [] := rfl

/-- C6 (amended): for every configuration, the walker applied to a missing or
non-directory root silently yields the empty sequence; root validation
happens only at the CLI boundary, through click.Path(exists=True,
file_okay=False). -/
theorem walker_invalid_root_empty (lc : Nat) (i l : String) :
    walker none lc i l = [] := rfl

/-- Every directory of a child subtree is visited by the walk of the parent,
whether or not any directory on the way qualifies as a jobfolder. -/
theorem mem_walkSubs_of_mem_child {p : DirPath} {subdirs : List (String × FsTree)}
    {n : String} {c : FsTree} (hc : (n, c) ∈ subdirs) :
    ∀ e ∈ walkDirs (p ++ [n]) c, e ∈ walkSubs p subdirs := by
  induction subdirs with
  | nil => cases hc
  | cons hd rest ih =>
    intro e he
    obtain ⟨n0, c0⟩ := hd
    simp only [walkSubs]
    rcases List.mem_cons.mp hc with h | h
    · cases h
      exact List.mem_append_left _ he
    · exact List.mem_append_right _ (ih h e he)

/-- C2: over any walk of a root tree whose visited paths are distinct (as
paths on a real filesystem are), a visited directory's Result is yielded iff
the directory contains the marker file; the yielded paths contain no
duplicates; and every directory of every subtree is visited regardless of
whether its ancestors qualify, so a jobfolder nested inside another jobfolder
is yielded as well. -/
theorem walker_yields_exactly_jobfolders (t : FsTree) (lc : Nat) (i l : String)
    (hnd : ((walkDirs [] t).map Prod.fst).Nodup) :
    (∀ e ∈ walkDirs [] t,
      (is_jobfolder e.2 i = true ↔ as_result lc l e ∈ walker (some t) lc i l))
    ∧ ((walker (some t) lc i l).map Result.path).Nodup
    ∧ (∀ (p : DirPath) (files : DirFiles) (subdirs : List (String × FsTree))
        (n : String) (c : FsTree), (n, c) ∈ subdirs →
        ∀ e ∈ walkDirs (p ++ [n]) c, e ∈ walkDirs p (.node files subdirs)) := by
  refine ⟨?_, ?_, ?_⟩
  · intro e he
    constructor
    · intro hq
      simp only [walker, osWalk]
      exact List.mem_map_of_mem _ (List.mem_filter.mpr ⟨he, hq⟩)
    · intro hm
      simp only [walker, osWalk] at hm
      obtain ⟨e', he', heq⟩ := List.mem_map.mp hm
      have he'mem : e' ∈ walkDirs [] t := (List.mem_filter.mp he').1
      have hq' : is_jobfolder e'.2 i = true := (List.mem_filter.mp he').2
      have hpath : e'.1 = e.1 := congrArg Result.path heq
      have hee : e' = e := List.inj_on_of_nodup_map hnd he'mem he hpath
      rw [← hee]
      exact hq'
  · simp only [walker, osWalk]
    have hcomp : ∀ L : List Entry,
        (L.map (as_result lc l)).map Result.path = L.map Prod.fst := by
      intro L
      rw [List.map_map]
      rfl
    rw [hcomp]
    exact hnd.sublist ((List.filter_sublist _).map Prod.fst)
  · intro p files subdirs n c hc e he
    simp only [walkDirs]
    exact List.mem_cons_of_mem _ (mem_walkSubs_of_mem_child hc e he)

/-- Witness for C2: in a root jobfolder nesting a second jobfolder in the
subdirectory "sub", the nested jobfolder's Result is yielded. -/
theorem walker_yields_exactly_jobfolders_witness :
    as_result 20 "log.txt" (["sub"], [("initial.traj", []), ("log.txt", [])])
      ∈ walker (some (.node [("initial.traj", [])]
          [("sub", .node [("initial.traj", []), ("log.txt", [])] [])]))
        20 "initial.traj" "log.txt" := by
  have h := walker_yields_exactly_jobfolders
    (.node [("initial.traj", [])] [("sub", .node [("initial.traj", []), ("log.txt", [])] [])])
    20 "initial.traj" "log.txt" (by decide)
  exact (h.1 (["sub"], [("initial.traj", []), ("log.txt", [])]) (by decide)).mp (by decide)

end Jobtool
